import Mathlib

/-!
Verification of the dns-track-exporter resolution-and-metrics core.

The Go sources are embedded shallowly:

* package `dns` (resolver file): `Result`, `Resolver.Lookup` and
  `Resolver.updateMetrics` become `Result`, `Lookup` and `updateMetrics`
  below.  The Go standard library resolver (`net.Resolver.LookupIP` /
  `LookupIPAddr`) is an external effect; it is modelled by a `NetEnv`
  oracle whose functions take the DNS server, the timeout, the network
  ("ip4" / "ip6") and the queried name, and return either an error string
  or a list of addresses (the `Except` shape mirrors the Go convention
  that a non-nil error comes with an empty address slice).  Durations are
  nanosecond counts (`Nat`); `time.Duration.Seconds()` becomes the exact
  rational `durationSeconds`.
* the Prometheus metric vectors held by the `Resolver` struct become the
  explicit `MetricsState` record threaded through `Lookup`; `GaugeVec.With(...).Set`
  and `CounterVec.With(...).Inc` become pointwise function updates keyed by
  the label records.
* `main.go`: the monitoring goroutine body (one pass over the
  targets x servers x record-types cross product) becomes `tickTriples` /
  `runTick`; the per-call label trace is accumulated so ordering claims can
  be stated.
-/

/-- Address family of a resolved IP address. -/
inductive IPFamily where
  | v4
  | v6
deriving DecidableEq, Repr

/-- A resolved address: family plus its textual form (what `ip.IP.String()`
returns in Go, used as the `ip_address` label value). -/
structure IPAddr where
  family : IPFamily
  addr : String
deriving DecidableEq, Repr

/-- Oracle for the Go standard library resolver used by `Lookup`.
`lookupIP dnsServer timeout network fqdn` models
`resolver.LookupIP(ctx, network, fqdn)` where the resolver dials
`dnsServer` and the context carries `timeout`; `lookupIPAddr` models
`resolver.LookupIPAddr(ctx, fqdn)`.  `elapsed` is the wall-clock duration
(nanoseconds) observed by `time.Since(start)`. -/
structure NetEnv where
  lookupIP : String → Nat → String → String → Except String (List IPAddr)
  lookupIPAddr : String → Nat → String → Except String (List IPAddr)
  elapsed : Nat

/-- The `dns.Result` struct: outcome of one resolution attempt. -/
structure Result where
  FQDN : String
  RecordType : String
  DNSServer : String
  IPs : List IPAddr
  Duration : Nat
  Success : Bool
  Error : Option String
deriving DecidableEq, Repr

/-- Label set of the three-label metric families
(`fqdn`, `record_type`, `dns_server`). -/
structure Labels where
  fqdn : String
  record_type : String
  dns_server : String
deriving DecidableEq, Repr

/-- Label set of `dns_query_total` (adds `status`). -/
structure QLabels where
  fqdn : String
  record_type : String
  dns_server : String
  status : String
deriving DecidableEq, Repr

/-- Label set of `dns_resolved_ip_address` (adds `ip_address`). -/
structure IPLabels where
  fqdn : String
  record_type : String
  dns_server : String
  ip_address : String
deriving DecidableEq, Repr

/-- The five metric vectors held by the `Resolver` struct.  A gauge series
is `none` until first created by `With(...).Set`; a counter series is
implicitly `0` until first incremented. -/
structure MetricsState where
  responseTime : Labels → Option ℚ
  resolutionSuccess : Labels → Option ℚ
  resolvedIpCount : Labels → Option ℚ
  queryTotal : QLabels → Nat
  resolvedIpAddress : IPLabels → Option ℚ

/-- Pointwise gauge write: `vec.With(k).Set(v)`. -/
def setGauge (f : Labels → Option ℚ) (k : Labels) (v : ℚ) : Labels → Option ℚ :=
  fun l => if l = k then some v else f l

/-- Pointwise counter increment: `vec.With(k).Inc()`. -/
def incCounter (f : QLabels → Nat) (k : QLabels) : QLabels → Nat :=
  fun l => if l = k then f l + 1 else f l

/-- Pointwise gauge write for the `ip_address`-labelled family. -/
def setIpGauge (f : IPLabels → Option ℚ) (k : IPLabels) (v : ℚ) : IPLabels → Option ℚ :=
  fun l => if l = k then some v else f l

/-- Go `time.Duration.Seconds()`: nanoseconds over 10^9, as an exact
rational. -/
def durationSeconds (d : Nat) : ℚ :=
  (d : ℚ) / 1000000000

/-- The label map built at the top of `updateMetrics`. -/
def labelsOf (result : Result) : Labels :=
  { fqdn := result.FQDN, record_type := result.RecordType, dns_server := result.DNSServer }

/-- Body of the `for _, ip := range result.IPs` loop at the end of
`updateMetrics`: set `dns_resolved_ip_address` to 1 for one resolved IP. -/
def markIpAddress (f rec srv : String) (st : MetricsState) (ip : IPAddr) : MetricsState :=
  { st with resolvedIpAddress := setIpGauge st.resolvedIpAddress (IPLabels.mk f rec srv ip.addr) 1 }

/-- `Resolver.updateMetrics`: write `dns_response_time_seconds`; on failure
set `dns_resolution_success` to 0 and bump the failure counter and return;
on success set `dns_resolution_success` to 1, `dns_resolved_ip_count` to the
number of addresses, bump the success counter, and mark each resolved IP. -/
def updateMetrics (s : MetricsState) (result : Result) : MetricsState :=
  let labels := labelsOf result
  let s1 := { s with responseTime := setGauge s.responseTime labels (durationSeconds result.Duration) }
  if result.Success = false then
    { s1 with
      resolutionSuccess := setGauge s1.resolutionSuccess labels 0,
      queryTotal := incCounter s1.queryTotal (QLabels.mk result.FQDN result.RecordType result.DNSServer "failure") }
  else
    let s2 := { s1 with
      resolutionSuccess := setGauge s1.resolutionSuccess labels 1,
      resolvedIpCount := setGauge s1.resolvedIpCount labels ((result.IPs.length : ℚ)),
      queryTotal := incCounter s1.queryTotal (QLabels.mk result.FQDN result.RecordType result.DNSServer "success") }
    result.IPs.foldl (markIpAddress result.FQDN result.RecordType result.DNSServer) s2

/-- `Resolver.Lookup`: switch on the record type — "A" requests network
"ip4" only, "AAAA" requests "ip6" only, anything else takes the default
branch resolving both families via `LookupIPAddr`; on a lookup error the
address list stays empty.  The Go method returns the `Result` and, through
the metric vectors held by the `Resolver` receiver, mutates the metrics
(`r.updateMetrics(result)`); here that receiver state is passed and
returned explicitly. -/
def Lookup (env : NetEnv) (s : MetricsState) (fqdn dnsServer recordType : String)
    (timeout : Nat) : Result × MetricsState :=
  let p : List IPAddr × Option String :=
    if recordType = "A" then
      match env.lookupIP dnsServer timeout "ip4" fqdn with
      | Except.ok ipv4s => (ipv4s, none)
      | Except.error e => ([], some e)
    else if recordType = "AAAA" then
      match env.lookupIP dnsServer timeout "ip6" fqdn with
      | Except.ok ipv6s => (ipv6s, none)
      | Except.error e => ([], some e)
    else
      match env.lookupIPAddr dnsServer timeout fqdn with
      | Except.ok l => (l, none)
      | Except.error e => ([], some e)
  let result : Result :=
    { FQDN := fqdn, RecordType := recordType, DNSServer := dnsServer,
      IPs := p.1, Duration := env.elapsed, Success := p.2.isNone, Error := p.2 }
  (result, updateMetrics s result)

/-- A concrete resolving environment used to instantiate theorems: the
"ip4" network resolves to one IPv4 address, "ip6" to one IPv6 address, and
the dual-stack path returns both. -/
def env0 : NetEnv :=
  { lookupIP := fun _ _ net _ =>
      if net = "ip4" then Except.ok [{ family := IPFamily.v4, addr := "192.0.2.1" }]
      else Except.ok [{ family := IPFamily.v6, addr := "2001:db8::1" }],
    lookupIPAddr := fun _ _ _ =>
      Except.ok [{ family := IPFamily.v4, addr := "192.0.2.1" },
                 { family := IPFamily.v6, addr := "2001:db8::1" }],
    elapsed := 2000000 }

/-- A concrete failing environment: every lookup errors. -/
def envErr : NetEnv :=
  { lookupIP := fun _ _ _ _ => Except.error "no such host",
    lookupIPAddr := fun _ _ _ => Except.error "no such host",
    elapsed := 1000 }

/-- The freshly registered metrics state: no gauge series created, every
counter at zero. -/
def s0 : MetricsState :=
  { responseTime := fun _ => none,
    resolutionSuccess := fun _ => none,
    resolvedIpCount := fun _ => none,
    queryTotal := fun _ => 0,
    resolvedIpAddress := fun _ => none }

/-- One entry of `config.DNSServers` (`config.DNSServer`). -/
structure DNSServer where
  name : String
  address : String
deriving DecidableEq, Repr

/-- One entry of `config.Targets` (`config.Target`). -/
structure Target where
  fqdn : String
  recordTypes : List String
deriving DecidableEq, Repr

/-- The slice of the loaded configuration that the monitoring goroutine in
`main.go` reads: targets, DNS servers, interval and timeout (durations as
nanosecond counts). -/
structure Config where
  targets : List Target
  dnsServers : List DNSServer
  interval : Nat
  timeout : Nat
deriving DecidableEq, Repr

/-- The triple enumeration of one pass of the monitoring loop body in
`main.go`: targets in the outer loop, DNS servers in the middle, the
record types of the target in the inner loop; each iteration calls
`resolver.Lookup(target.FQDN, dnsServer.Address, recordType, timeout)`,
so a triple is `(fqdn, serverAddress, recordType)`. -/
def tickTriples (cfg : Config) : List (String × String × String) :=
  cfg.targets.flatMap fun target =>
    cfg.dnsServers.flatMap fun srv =>
      target.recordTypes.map fun rt => (target.fqdn, srv.address, rt)

/-- One loop iteration: run `Lookup` on the triple, thread the metrics
state, and append the label set of the metrics update performed by that
call to the trace. -/
def tickStep (env : NetEnv) (timeout : Nat) (acc : MetricsState × List Labels)
    (t : String × String × String) : MetricsState × List Labels :=
  let p := Lookup env acc.1 t.1 t.2.1 t.2.2 timeout
  (p.2, acc.2 ++ [Labels.mk p.1.FQDN p.1.RecordType p.1.DNSServer])

/-- One full tick of the monitoring goroutine: fold the loop body over the
triple enumeration, returning the final metrics state and the ordered
trace of metrics-update label sets. -/
def runTick (env : NetEnv) (cfg : Config) (s : MetricsState) : MetricsState × List Labels :=
  (tickTriples cfg).foldl (tickStep env cfg.timeout) (s, [])

lemma lookup_fst_FQDN (env : NetEnv) (s : MetricsState) (f d rt : String) (tmo : Nat) :
    (Lookup env s f d rt tmo).1.FQDN = f := rfl

lemma lookup_fst_RecordType (env : NetEnv) (s : MetricsState) (f d rt : String) (tmo : Nat) :
    (Lookup env s f d rt tmo).1.RecordType = rt := rfl

lemma lookup_fst_DNSServer (env : NetEnv) (s : MetricsState) (f d rt : String) (tmo : Nat) :
    (Lookup env s f d rt tmo).1.DNSServer = d := rfl

lemma lookup_fst_Duration (env : NetEnv) (s : MetricsState) (f d rt : String) (tmo : Nat) :
    (Lookup env s f d rt tmo).1.Duration = env.elapsed := rfl

lemma lookup_snd_eq (env : NetEnv) (s : MetricsState) (f d rt : String) (tmo : Nat) :
    (Lookup env s f d rt tmo).2 = updateMetrics s (Lookup env s f d rt tmo).1 := rfl

/-- C1: a completed `Lookup` satisfies the outcome invariant — a failed
outcome carries no addresses, and a successful outcome carries no error. -/
theorem lookup_outcome_invariant (env : NetEnv) (s : MetricsState) (f d rt : String) (tmo : Nat) :
    ((Lookup env s f d rt tmo).1.Success = false → (Lookup env s f d rt tmo).1.IPs = []) ∧
    ((Lookup env s f d rt tmo).1.Success = true → (Lookup env s f d rt tmo).1.Error = none) := by
  by_cases hA : rt = "A"
  · subst hA
    cases henv : env.lookupIP d tmo "ip4" f <;> simp [Lookup, henv]
  · by_cases hQ : rt = "AAAA"
    · subst hQ
      cases henv : env.lookupIP d tmo "ip6" f <;> simp [Lookup, henv]
    · cases henv : env.lookupIPAddr d tmo f <;> simp [Lookup, hA, hQ, henv]

/-- Witness for C1 at concrete environments: a failing lookup has an empty
address list, and a succeeding lookup has no failure reason. -/
theorem lookup_outcome_invariant_witness :
    ((Lookup envErr s0 "example.com" "" "A" 5000).1.Success = false ∧
     (Lookup envErr s0 "example.com" "" "A" 5000).1.IPs = []) ∧
    ((Lookup env0 s0 "example.com" "" "A" 5000).1.Success = true ∧
     (Lookup env0 s0 "example.com" "" "A" 5000).1.Error = none) :=
  ⟨⟨by decide, (lookup_outcome_invariant envErr s0 "example.com" "" "A" 5000).1 (by decide)⟩,
   ⟨by decide, (lookup_outcome_invariant env0 s0 "example.com" "" "A" 5000).2 (by decide)⟩⟩

/-- C9: `Lookup` is a total function into `Result`, and the failure reason
is present exactly when the outcome did not succeed — every failure mode
coming back from the resolver oracle is captured as an error value, never
propagated. -/
theorem lookup_never_raises (env : NetEnv) (s : MetricsState) (f d rt : String) (tmo : Nat) :
    (Lookup env s f d rt tmo).1.Error.isSome = !(Lookup env s f d rt tmo).1.Success := by
  by_cases hA : rt = "A"
  · subst hA
    cases henv : env.lookupIP d tmo "ip4" f <;> simp [Lookup, henv]
  · by_cases hQ : rt = "AAAA"
    · subst hQ
      cases henv : env.lookupIP d tmo "ip6" f <;> simp [Lookup, henv]
    · cases henv : env.lookupIPAddr d tmo f <;> simp [Lookup, hA, hQ, henv]

/-- C10: any record type other than exactly "A" or "AAAA" takes the
default branch of the switch, a dual-stack `LookupIPAddr` resolution whose
outcome is passed through unchanged — no record type value is rejected or
turned into an error by the resolver itself. -/
theorem lookup_default_dual_stack (env : NetEnv) (s : MetricsState) (f d rt : String)
    (tmo : Nat) (hA : rt ≠ "A") (hQ : rt ≠ "AAAA") :
    (∀ l, env.lookupIPAddr d tmo f = Except.ok l →
        (Lookup env s f d rt tmo).1.IPs = l ∧ (Lookup env s f d rt tmo).1.Success = true) ∧
    (∀ e, env.lookupIPAddr d tmo f = Except.error e →
        (Lookup env s f d rt tmo).1.IPs = [] ∧ (Lookup env s f d rt tmo).1.Error = some e) := by
  cases henv : env.lookupIPAddr d tmo f <;>
    simp_all [Lookup, hA, hQ]

/-- Witness for C10 at the record type "ANY" (not a switch case in the
source): the dual-stack answer of the concrete environment comes back
whole and the outcome succeeds. -/
theorem lookup_default_dual_stack_witness :
    ((Lookup env0 s0 "example.com" "" "ANY" 5000).1.IPs =
      [IPAddr.mk IPFamily.v4 "192.0.2.1", IPAddr.mk IPFamily.v6 "2001:db8::1"] ∧
     (Lookup env0 s0 "example.com" "" "ANY" 5000).1.Success = true) ∧
    ((Lookup envErr s0 "example.com" "" "" 5000).1.IPs = [] ∧
     (Lookup envErr s0 "example.com" "" "" 5000).1.Error = some "no such host") :=
  ⟨(lookup_default_dual_stack env0 s0 "example.com" "" "ANY" 5000 (by decide) (by decide)).1
      [IPAddr.mk IPFamily.v4 "192.0.2.1", IPAddr.mk IPFamily.v6 "2001:db8::1"] rfl,
   (lookup_default_dual_stack envErr s0 "example.com" "" "" 5000 (by decide) (by decide)).2
      "no such host" rfl⟩

/-- C2: under the net-package contract that a network "ip4" lookup answers
only IPv4 addresses and "ip6" only IPv6 (stated as hypotheses on the
oracle), record type "A" yields only IPv4 addresses, "AAAA" only IPv6,
and "ANY" passes through every address of the dual-stack answer whatever
its family. -/
theorem lookup_record_type_families (env : NetEnv) (s : MetricsState) (f d rt : String)
    (tmo : Nat)
    (h4 : ∀ srv t fq ips, env.lookupIP srv t "ip4" fq = Except.ok ips →
            ∀ ip ∈ ips, ip.family = IPFamily.v4)
    (h6 : ∀ srv t fq ips, env.lookupIP srv t "ip6" fq = Except.ok ips →
            ∀ ip ∈ ips, ip.family = IPFamily.v6) :
    (rt = "A" → ∀ ip ∈ (Lookup env s f d rt tmo).1.IPs, ip.family = IPFamily.v4) ∧
    (rt = "AAAA" → ∀ ip ∈ (Lookup env s f d rt tmo).1.IPs, ip.family = IPFamily.v6) ∧
    (rt = "ANY" → ∀ l, env.lookupIPAddr d tmo f = Except.ok l →
        (Lookup env s f d rt tmo).1.IPs = l) := by
  refine ⟨?_, ?_, ?_⟩
  · intro hrt ip hip
    subst hrt
    cases henv : env.lookupIP d tmo "ip4" f with
    | ok ips => simp [Lookup, henv] at hip; exact h4 d tmo f ips henv ip hip
    | error e => simp [Lookup, henv] at hip
  · intro hrt ip hip
    subst hrt
    cases henv : env.lookupIP d tmo "ip6" f with
    | ok ips => simp [Lookup, henv] at hip; exact h6 d tmo f ips henv ip hip
    | error e => simp [Lookup, henv] at hip
  · intro hrt l henv
    subst hrt
    simp [Lookup, henv]

/-- Witness for C2: with the concrete environment (whose oracle satisfies
the two family hypotheses) a type-A lookup contains the IPv4 address and
that address has family v4. -/
theorem lookup_record_type_families_witness :
    (IPAddr.mk IPFamily.v4 "192.0.2.1") ∈ (Lookup env0 s0 "example.com" "" "A" 5000).1.IPs ∧
    (IPAddr.mk IPFamily.v4 "192.0.2.1").family = IPFamily.v4 :=
  ⟨by decide,
    (lookup_record_type_families env0 s0 "example.com" "" "A" 5000
      (by intro srv t fq ips h ip hip
          simp [env0] at h
          subst h
          simp at hip
          subst hip
          rfl)
      (by intro srv t fq ips h ip hip
          simp [env0] at h
          subst h
          simp at hip
          subst hip
          rfl)).1 rfl (IPAddr.mk IPFamily.v4 "192.0.2.1") (by decide)⟩

lemma foldl_markIpAddress_preserves (f rec srv : String) (ips : List IPAddr)
    (st : MetricsState) :
    (ips.foldl (markIpAddress f rec srv) st).responseTime = st.responseTime ∧
    (ips.foldl (markIpAddress f rec srv) st).resolutionSuccess = st.resolutionSuccess ∧
    (ips.foldl (markIpAddress f rec srv) st).resolvedIpCount = st.resolvedIpCount ∧
    (ips.foldl (markIpAddress f rec srv) st).queryTotal = st.queryTotal := by
  induction ips generalizing st with
  | nil => exact ⟨rfl, rfl, rfl, rfl⟩
  | cons ip rest ih =>
    simpa [markIpAddress] using ih (markIpAddress f rec srv st ip)

lemma updateMetrics_responseTime (s : MetricsState) (r : Result) (l : Labels) :
    (updateMetrics s r).responseTime l =
      if l = labelsOf r then some (durationSeconds r.Duration) else s.responseTime l := by
  unfold updateMetrics
  cases ht : r.Success with
  | false => simp [setGauge]
  | true => simp [foldl_markIpAddress_preserves r.FQDN r.RecordType r.DNSServer r.IPs, setGauge]

lemma updateMetrics_resolutionSuccess (s : MetricsState) (r : Result) (l : Labels) :
    (updateMetrics s r).resolutionSuccess l =
      if l = labelsOf r then some (if r.Success = true then 1 else 0)
      else s.resolutionSuccess l := by
  unfold updateMetrics
  cases ht : r.Success with
  | false => simp [setGauge]
  | true => simp [foldl_markIpAddress_preserves r.FQDN r.RecordType r.DNSServer r.IPs, setGauge]

lemma updateMetrics_resolvedIpCount (s : MetricsState) (r : Result) (l : Labels) :
    (updateMetrics s r).resolvedIpCount l =
      if r.Success = true ∧ l = labelsOf r then some ((r.IPs.length : ℚ))
      else s.resolvedIpCount l := by
  unfold updateMetrics
  cases ht : r.Success with
  | false => simp [setGauge]
  | true => simp [foldl_markIpAddress_preserves r.FQDN r.RecordType r.DNSServer r.IPs, setGauge]

lemma updateMetrics_queryTotal (s : MetricsState) (r : Result) (q : QLabels) :
    (updateMetrics s r).queryTotal q =
      if q = QLabels.mk r.FQDN r.RecordType r.DNSServer
              (if r.Success = true then "success" else "failure")
      then s.queryTotal q + 1 else s.queryTotal q := by
  unfold updateMetrics
  cases ht : r.Success with
  | false => simp [incCounter]
  | true => simp [foldl_markIpAddress_preserves r.FQDN r.RecordType r.DNSServer r.IPs, incCounter]

/-- C5: full characterization of the `resolved_ip_count` family across one
metrics update — on a successful outcome the series for the outcome's own
labels is set to the address count (also when that count is 0), and on a
failed outcome every `resolved_ip_count` series keeps its previous value
(the failure branch returns before touching it). -/
theorem resolved_ip_count_frame (s : MetricsState) (r : Result) (l : Labels) :
    (updateMetrics s r).resolvedIpCount l =
      if r.Success = true ∧ l = labelsOf r then some ((r.IPs.length : ℚ))
      else s.resolvedIpCount l :=
  updateMetrics_resolvedIpCount s r l

/-- A successful concrete outcome used to instantiate the metrics claims. -/
def rOk : Result :=
  { FQDN := "example.com", RecordType := "A", DNSServer := "9.9.9.9",
    IPs := [IPAddr.mk IPFamily.v4 "192.0.2.7"], Duration := 3000000000,
    Success := true, Error := none }

/-- A failed concrete outcome used to instantiate the metrics claims. -/
def rFail : Result :=
  { FQDN := "example.com", RecordType := "A", DNSServer := "9.9.9.9",
    IPs := [], Duration := 1000000000,
    Success := false, Error := some "lookup timed out" }

/-- C4: after any non-empty sequence of updates carrying one label set,
written as `rs ++ [rlast]`, the `response_time` series holds the elapsed
seconds of the most recent outcome and the `resolution_success` series
holds 1 or 0 according to the most recent outcome alone — last write wins
on success and on failure alike, never an aggregate. -/
theorem gauges_last_write_wins (s : MetricsState) (rs : List Result) (rlast : Result)
    (f rt srv : String)
    (h : ∀ r ∈ rs ++ [rlast], r.FQDN = f ∧ r.RecordType = rt ∧ r.DNSServer = srv) :
    ((rs ++ [rlast]).foldl updateMetrics s).responseTime (Labels.mk f rt srv)
        = some (durationSeconds rlast.Duration) ∧
    ((rs ++ [rlast]).foldl updateMetrics s).resolutionSuccess (Labels.mk f rt srv)
        = some (if rlast.Success = true then 1 else 0) := by
  have hl : rlast.FQDN = f ∧ rlast.RecordType = rt ∧ rlast.DNSServer = srv :=
    h rlast (by simp)
  rw [List.foldl_append]
  constructor
  · rw [List.foldl_cons, List.foldl_nil, updateMetrics_responseTime]
    simp [labelsOf, hl.1, hl.2.1, hl.2.2]
  · rw [List.foldl_cons, List.foldl_nil, updateMetrics_resolutionSuccess]
    simp [labelsOf, hl.1, hl.2.1, hl.2.2]

/-- Witness for C4: a failure followed by a success, starting from the
fresh state — both gauges show the values of the second call only. -/
theorem gauges_last_write_wins_witness :
    (([rFail] ++ [rOk]).foldl updateMetrics s0).responseTime (Labels.mk "example.com" "A" "9.9.9.9")
        = some (durationSeconds rOk.Duration) ∧
    (([rFail] ++ [rOk]).foldl updateMetrics s0).resolutionSuccess (Labels.mk "example.com" "A" "9.9.9.9")
        = some (if rOk.Success = true then 1 else 0) :=
  gauges_last_write_wins s0 [rFail] rOk "example.com" "A" "9.9.9.9" (by decide)

lemma queryTotal_sum_single (s : MetricsState) (r : Result) :
    (updateMetrics s r).queryTotal (QLabels.mk r.FQDN r.RecordType r.DNSServer "success")
      + (updateMetrics s r).queryTotal (QLabels.mk r.FQDN r.RecordType r.DNSServer "failure")
    = s.queryTotal (QLabels.mk r.FQDN r.RecordType r.DNSServer "success")
      + s.queryTotal (QLabels.mk r.FQDN r.RecordType r.DNSServer "failure") + 1 := by
  rw [updateMetrics_queryTotal, updateMetrics_queryTotal]
  cases ht : r.Success with
  | false =>
    simp [QLabels.mk.injEq, show ("success" : String) ≠ "failure" by decide]
    omega
  | true =>
    simp [QLabels.mk.injEq, show ("failure" : String) ≠ "success" by decide]
    omega

/-- C3: each metrics update increments exactly one of the two `query_total`
status series for its labels by exactly 1 (the matching status by 1, the
other not at all), and therefore after any N updates carrying identical
labels the success-status and failure-status counters sum to their initial
total plus N. -/
theorem query_total_partition :
    (∀ (s : MetricsState) (r : Result),
        (updateMetrics s r).queryTotal (QLabels.mk r.FQDN r.RecordType r.DNSServer "success")
          = s.queryTotal (QLabels.mk r.FQDN r.RecordType r.DNSServer "success")
            + (if r.Success = true then 1 else 0) ∧
        (updateMetrics s r).queryTotal (QLabels.mk r.FQDN r.RecordType r.DNSServer "failure")
          = s.queryTotal (QLabels.mk r.FQDN r.RecordType r.DNSServer "failure")
            + (if r.Success = true then 0 else 1)) ∧
    (∀ (s : MetricsState) (rs : List Result) (f rt srv : String),
        (∀ r ∈ rs, r.FQDN = f ∧ r.RecordType = rt ∧ r.DNSServer = srv) →
        (rs.foldl updateMetrics s).queryTotal (QLabels.mk f rt srv "success")
            + (rs.foldl updateMetrics s).queryTotal (QLabels.mk f rt srv "failure")
          = s.queryTotal (QLabels.mk f rt srv "success")
            + s.queryTotal (QLabels.mk f rt srv "failure") + rs.length) := by
  constructor
  · intro s r
    rw [updateMetrics_queryTotal, updateMetrics_queryTotal]
    cases ht : r.Success with
    | false =>
      simp [QLabels.mk.injEq, show ("success" : String) ≠ "failure" by decide,
            show ("failure" : String) ≠ "success" by decide]
    | true =>
      simp [QLabels.mk.injEq, show ("success" : String) ≠ "failure" by decide,
            show ("failure" : String) ≠ "success" by decide]
  · intro s rs
    induction rs generalizing s with
    | nil => intro f rt srv _; simp
    | cons r rest ih =>
      intro f rt srv h
      obtain ⟨h1, h2, h3⟩ := h r (by simp)
      have hrest : ∀ x ∈ rest, x.FQDN = f ∧ x.RecordType = rt ∧ x.DNSServer = srv :=
        fun x hx => h x (by simp [hx])
      rw [List.foldl_cons, ih (updateMetrics s r) f rt srv hrest]
      subst h1 h2 h3
      rw [queryTotal_sum_single s r]
      simp
      omega

/-- Witness for C3: two updates (one success, one failure) with identical
labels on the fresh state leave the two status counters summing to 2. -/
theorem query_total_partition_witness :
    (([rOk, rFail]).foldl updateMetrics s0).queryTotal (QLabels.mk "example.com" "A" "9.9.9.9" "success")
      + (([rOk, rFail]).foldl updateMetrics s0).queryTotal (QLabels.mk "example.com" "A" "9.9.9.9" "failure")
    = s0.queryTotal (QLabels.mk "example.com" "A" "9.9.9.9" "success")
      + s0.queryTotal (QLabels.mk "example.com" "A" "9.9.9.9" "failure") + 2 := by
  have h := query_total_partition.2 s0 [rOk, rFail] "example.com" "A" "9.9.9.9" (by decide)
  simpa using h

/-- Counterexample for C6: a single `Lookup` call does mutate the
measurement series — starting from the fresh state, the `response_time`
series for the call's labels changes from absent to a value, because the
Go method body ends with `r.updateMetrics(result)` on the metric vectors
held by the `Resolver` itself. -/
theorem lookup_mutates_metrics_cex :
    (Lookup env0 s0 "example.com" "" "A" 5000).2.responseTime (Labels.mk "example.com" "A" "")
      ≠ s0.responseTime (Labels.mk "example.com" "A" "") := by decide

/-- C6 amended: `Lookup` is not metrics-free — the `Resolver` receiver
holds the five metric vectors and every call performs exactly one
`updateMetrics` on them as its final step, writing the `response_time`
series for the call's labels and incrementing the `query_total` series
whose status matches the outcome by exactly 1. -/
theorem lookup_updates_metrics (env : NetEnv) (s : MetricsState) (f d rt : String)
    (tmo : Nat) :
    (Lookup env s f d rt tmo).2 = updateMetrics s (Lookup env s f d rt tmo).1 ∧
    (Lookup env s f d rt tmo).2.responseTime (Labels.mk f rt d)
      = some (durationSeconds env.elapsed) ∧
    (Lookup env s f d rt tmo).2.queryTotal
        (QLabels.mk f rt d (if (Lookup env s f d rt tmo).1.Success = true then "success" else "failure"))
      = s.queryTotal
        (QLabels.mk f rt d (if (Lookup env s f d rt tmo).1.Success = true then "success" else "failure"))
        + 1 := by
  refine ⟨rfl, ?_, ?_⟩
  · rw [lookup_snd_eq, updateMetrics_responseTime]
    simp [labelsOf, lookup_fst_FQDN, lookup_fst_RecordType, lookup_fst_DNSServer,
          lookup_fst_Duration]
  · rw [lookup_snd_eq, updateMetrics_queryTotal]
    simp [lookup_fst_FQDN, lookup_fst_RecordType, lookup_fst_DNSServer]

lemma tick_trace_aux (env : NetEnv) (tmo : Nat) (ts : List (String × String × String)) :
    ∀ st : MetricsState × List Labels,
      (ts.foldl (tickStep env tmo) st).2
        = st.2 ++ ts.map (fun t => Labels.mk t.1 t.2.2 t.2.1) := by
  induction ts with
  | nil => intro st; simp
  | cons t rest ih =>
    intro st
    rw [List.foldl_cons, ih]
    simp [tickStep, lookup_fst_FQDN, lookup_fst_RecordType, lookup_fst_DNSServer]

lemma runTick_trace (env : NetEnv) (cfg : Config) (s : MetricsState) :
    (runTick env cfg s).2 = (tickTriples cfg).map (fun t => Labels.mk t.1 t.2.2 t.2.1) := by
  unfold runTick
  rw [tick_trace_aux]
  simp

/-- C7: the label trace of one tick is a function of the configuration
alone — the same fixed order (targets outer, servers middle, record types
inner) in every tick whatever the environment or prior metrics state, each
triple resolved and recorded before the next — and the two-targets x
one-server x one-record-type configuration produces exactly the two record
calls `[f1, f2]`, with distinct `fqdn` label values when the targets
differ. -/
theorem tick_order_deterministic_two_targets
    (env env2 : NetEnv) (s s2 : MetricsState) (cfg : Config)
    (f1 f2 rt nm a : String) (iv tmo : Nat) (hne : f1 ≠ f2) :
    (runTick env cfg s).2 = (runTick env2 cfg s2).2 ∧
    (runTick env (Config.mk [Target.mk f1 [rt], Target.mk f2 [rt]]
        [DNSServer.mk nm a] iv tmo) s).2
      = [Labels.mk f1 rt a, Labels.mk f2 rt a] ∧
    (Labels.mk f1 rt a).fqdn ≠ (Labels.mk f2 rt a).fqdn := by
  refine ⟨?_, ?_, hne⟩
  · rw [runTick_trace, runTick_trace]
  · rw [runTick_trace]
    simp [tickTriples]

/-- Witness for C7 on two concrete distinct targets: one tick records
exactly two label sets, in target order. -/
theorem tick_order_deterministic_two_targets_witness :
    (runTick env0 (Config.mk [Target.mk "a.example" ["A"], Target.mk "b.example" ["A"]]
        [DNSServer.mk "g" "8.8.8.8"] 30 10) s0).2
      = [Labels.mk "a.example" "A" "8.8.8.8", Labels.mk "b.example" "A" "8.8.8.8"] :=
  (tick_order_deterministic_two_targets env0 env0 s0 s0
    (Config.mk [] [] 0 0) "a.example" "b.example" "A" "g" "8.8.8.8" 30 10 (by decide)).2.1
